import Mathlib

/-!
Verification development for the EZShare CPAP SD-card sync scripts
(`ezshare_resmed.py`, `ezshare_generic.py`, `transferCardData.py`).

The Python scripts are shallowly embedded: pure decision logic is translated
to Lean functions, the stateful traversal is modelled as explicit state
passing over a filesystem value, and network/filesystem effects are made
explicit (a file's fetch outcome is data; the local filesystem is a value).
Timestamps are `Nat` values; `datetime.timestamp()` is modelled by a
strictly monotone field encoding (`encTs`), and the code's use of `0` as the
"no timestamp parsed" sentinel (`file_ts = 0`) is kept as-is.
-/

set_option autoImplicit false

namespace EZShareSpec

/-! ## The per-file download decision (`ezshare_resmed.py`, lines 532-536)

`download_file` computes
`mtime = file_path.stat().st_mtime if file_path.is_file() else 0` and then
downloads iff
`(self.overwrite or mtime < file_ts) and not (already_exists and self.keep_old)`.
-/

/-- The boolean guard of `EZShare.download_file` (line 536):
`o` is `self.overwrite`, `k` is `self.keep_old`, `ex` is `already_exists`,
`m` is the local mtime when the file exists (the code initialises `mtime = 0`
and only overwrites it when the file exists), `ts` is `file_ts`. -/
def downloadDecision (o k ex : Bool) (m ts : Nat) : Bool :=
  (o || decide ((if ex then m else 0) < ts)) && !(ex && k)

/-- The `IfRemoteNewer` mode as the spec's words describe it (section 3):
"replace only if remote `modified_at` is strictly greater than the local
file's current modification time, or if the local file does not yet exist".
Written from the spec, for comparison with `downloadDecision`. -/
def ifRemoteNewerSpec (ex : Bool) (m ts : Nat) : Bool :=
  !ex || decide (m < ts)

/-- Local mtime state of one file (`none` = the file does not exist) after one
`IfRemoteNewer`-mode pass of `download_file` over it: when the guard fires the
file is written and, because the code runs `os.utime(file_path, (file_ts, file_ts))`
whenever `file_ts` is truthy, its mtime becomes `file_ts` (were `file_ts = 0`,
the mtime would be the wall-clock write time `now`). -/
def after_first_sync (m : Option Nat) (ts now : Nat) : Option Nat :=
  if downloadDecision false false m.isSome (m.getD 0) ts then
    some (if ts = 0 then now else ts)
  else m

/-! ## Remote tree, local filesystem and the traversal engine
(`ezshare_resmed.py`: `run`/`recursive_traversal`/`check_files`/
`download_file`/`check_dirs`, lines 395-582)

The network is made explicit: a remote file carries the outcome of
`self.session.get(url)` followed by `raise_for_status()` — `.ok body`, or
`.error code` once the adapter-level retries (`retry.Retry(total=retries)`)
are exhausted or the final status is non-2xx.  A directory listing page
either yields a `<pre>` block (`.good`), or has none, in which case
`soup.find('pre').decode_contents()` raises `AttributeError` (`.bad`).
The listing-line parser itself is modelled separately below (`processLine`);
the engine consumes its parsed output, as `recursive_traversal` consumes
`list_dir`'s.  On an error the engine returns the filesystem as written so
far paired with `some` error, mirroring an uncaught Python exception
propagating out of `run` past already-performed writes. -/

deriving instance DecidableEq for Except

/-- One parsed file row handed to `check_files`: display name, `file_ts`
(0 when no timestamp was parsed), and the outcome of fetching it. -/
structure RFile where
  name : String
  ts : Nat
  fetch : Except Nat String
  deriving DecidableEq

mutual
/-- A remote directory as the device serves it: `.bad` is a listing page with
no `<pre>` block at all, `.good` carries the parsed file rows and
subdirectory rows in listing order. -/
inductive RNode : Type where
  | bad : RNode
  | good : List RFile → RDirs → RNode
/-- The subdirectory rows of a listing, in order: name and child node. -/
inductive RDirs : Type where
  | dnil : RDirs
  | dcons : String → RNode → RDirs → RDirs
end

/-- The attributes of the `EZShare` object that the traversal can see.
`start_time` mirrors `self.start_time` (built by `main` from `--start_from`
or `--day_count`); it is stored by `__init__` and — as the theorems below
record — never consulted by the traversal. -/
structure Config where
  overwrite : Bool
  keep_old : Bool
  start_time : Option Nat
  deriving DecidableEq

/-- The local filesystem: downloaded files (path components with their mtime)
and created directories. -/
structure FS where
  files : List (List String × Nat)
  dirs : List (List String)
  deriving DecidableEq

/-- Mtime of a local file, `none` when absent (`file_path.is_file()` false). -/
def fileMtime (fs : FS) (p : List String) : Option Nat :=
  fs.files.lookup p

/-- `file_path.is_file()`. -/
def fileExistsB (fs : FS) (p : List String) : Bool :=
  (fileMtime fs p).isSome

/-- The `mtime` local of `download_file`: `0` when the file does not exist,
`stat().st_mtime` otherwise. -/
def mt0 (fs : FS) (p : List String) : Nat :=
  (fileMtime fs p).getD 0

/-- Write (or replace) a local file, recording its resulting mtime. -/
def writeFile (fs : FS) (p : List String) (t : Nat) : FS :=
  { fs with files := (p, t) :: fs.files.filter (fun q => !(q.1 == p)) }

/-- `new_dir_path.mkdir(exist_ok=True)`: create the directory if absent. -/
def mkdirFS (fs : FS) (p : List String) : FS :=
  if p ∈ fs.dirs then fs else { fs with dirs := p :: fs.dirs }

/-- Errors that abort the traversal: a listing page without a `<pre>` block
(`AttributeError` in `list_dir`) or a download whose `raise_for_status()`
raised with the given status. -/
inductive TErr : Type where
  | parse : TErr
  | http : Nat → TErr
  deriving DecidableEq

/-- `EZShare.download_file` (lines 519-562) acting on the model state:
evaluate the guard; when it fires, perform the GET — a failure raises
(`raise_for_status`, line 539, before the file is opened), a success streams
the body to `file_path` and then applies `os.utime` when `file_ts` is truthy
(so the stored mtime is `file_ts`, or the write time `now` when
`file_ts = 0`). -/
def download_file (cfg : Config) (now : Nat) (f : RFile) (p : List String)
    (fs : FS) : FS × Option TErr :=
  if downloadDecision cfg.overwrite cfg.keep_old (fileExistsB fs p) (mt0 fs p) f.ts then
    match f.fetch with
    | .error code => (fs, some (.http code))
    | .ok _ => (writeFile fs p (if f.ts = 0 then now else f.ts), none)
  else (fs, none)

/-- `EZShare.check_files` (lines 499-517): iterate the file rows in order,
calling `download_file` on `dir_path / filename`; there is no `try/except`,
so the first raised error stops the iteration and propagates. -/
def check_files (cfg : Config) (now : Nat) :
    List RFile → List String → FS → FS × Option TErr
  | [], _, fs => (fs, none)
  | f :: rest, path, fs =>
    match download_file cfg now f (path ++ [f.name]) fs with
    | (fs1, some e) => (fs1, some e)
    | (fs1, none) => check_files cfg now rest path fs1

mutual
/-- `EZShare.recursive_traversal` (lines 427-437): list the directory
(raising when the page has no `<pre>` block), then `check_files`, then
`check_dirs`; no error is caught anywhere on this path. -/
def recursive_traversal (cfg : Config) (now : Nat) :
    RNode → List String → FS → FS × Option TErr
  | .bad, _, fs => (fs, some .parse)
  | .good files dirs, path, fs =>
    match check_files cfg now files path fs with
    | (fs1, some e) => (fs1, some e)
    | (fs1, none) => check_dirs cfg now dirs path fs1
/-- `EZShare.check_dirs` (lines 565-582): for every subdirectory row —
unconditionally, with no date or `start_time` test — create the local
directory and recurse. -/
def check_dirs (cfg : Config) (now : Nat) :
    RDirs → List String → FS → FS × Option TErr
  | .dnil, _, fs => (fs, none)
  | .dcons name child rest, path, fs =>
    let fs1 := mkdirFS fs (path ++ [name])
    match recursive_traversal cfg now child (path ++ [name]) fs1 with
    | (fs2, some e) => (fs2, some e)
    | (fs2, none) => check_dirs cfg now rest path fs2
end

/-! ## The listing-line parser (`ezshare_resmed.py`, `list_dir`, lines 458-497)

For each non-blank line of the `<pre>` block the code computes
`parts = line.rsplit(maxsplit=2)` and
`modifypart = parts[0].replace('- ', '-0').replace(': ', ':0')`, then
searches `modifypart` for the pattern `\d*-\d*-\d*\s*\d*:\d*:\d*`; when a
candidate is found it is handed to
`datetime.strptime(match.group(), '%Y-%m-%d   %H:%M:%S')` (whose `ValueError`
on an unparsable candidate is not caught), otherwise `file_ts = 0`.
The models below follow CPython exactly: `rsplit2Head` is
`str.rsplit(maxsplit=2)[0]`; `looseSearch` is `re.search` for that pattern
(all classes in the pattern are disjoint, so greedy matching is
deterministic); `strptimeTs` is `_strptime` for that format — whitespace in
the format matches `\s+`, directives use `_strptime`'s field regexes in
their alternation order, the whole string must be consumed, and the field
values must form a valid calendar datetime. -/

/-- Digit value of an ASCII digit character. -/
def dval (c : Char) : Nat := c.toNat - 48

/-- Character range test used by the `_strptime` field regexes. -/
def inR (lo hi c : Char) : Bool := lo ≤ c && c ≤ hi

/-- `str.rsplit(maxsplit=2)[0]` for a non-blank line: split off the last two
whitespace-run-separated tokens; with three or more tokens the head keeps its
leading whitespace but not the separator run; with fewer, the first token of
the split is returned. -/
def rsplit2Head (s : String) : String :=
  let r := s.data.reverse
  let r1 := r.dropWhile Char.isWhitespace
  let r2 := r1.dropWhile (fun c => !c.isWhitespace)
  let r3 := r2.dropWhile Char.isWhitespace
  if r3.isEmpty then
    ((r1.takeWhile (fun c => !c.isWhitespace)).reverse).asString
  else
    let r4 := r3.dropWhile (fun c => !c.isWhitespace)
    let r5 := r4.dropWhile Char.isWhitespace
    if r5.isEmpty then
      ((r3.takeWhile (fun c => !c.isWhitespace)).reverse).asString
    else
      (r5.reverse).asString

/-- `str.replace` for a two-character pattern: scan left to right, replace
each non-overlapping occurrence of `a b` by `c d` and continue after it,
exactly as CPython does. -/
def replace2 (a b c d : Char) : List Char → List Char
  | [] => []
  | [x] => [x]
  | x :: y :: rest =>
    if x = a && y = b then c :: d :: replace2 a b c d rest
    else x :: replace2 a b c d (y :: rest)

/-- `parts[0].replace('- ', '-0').replace(': ', ':0')` (line 469). -/
def normalizeTs (s : String) : String :=
  (replace2 ':' ' ' ':' '0' (replace2 '-' ' ' '-' '0' s.data)).asString

/-- One attempt of the pattern `\d*-\d*-\d*\s*\d*:\d*:\d*` anchored at the
head of `cs`; every starred class is disjoint from the following literal, so
greedy matching never backtracks and is deterministic. Returns the matched
characters. -/
def looseMatchAt (cs : List Char) : Option (List Char) :=
  let (d1, r1) := cs.span Char.isDigit
  match r1 with
  | '-' :: r2 =>
    let (d2, r3) := r2.span Char.isDigit
    match r3 with
    | '-' :: r4 =>
      let (d3, r5) := r4.span Char.isDigit
      let (ws, r6) := r5.span Char.isWhitespace
      let (d4, r7) := r6.span Char.isDigit
      match r7 with
      | ':' :: r8 =>
        let (d5, r9) := r8.span Char.isDigit
        match r9 with
        | ':' :: r10 =>
          let (d6, _) := r10.span Char.isDigit
          some (d1 ++ '-' :: d2 ++ '-' :: d3 ++ ws ++ d4 ++ ':' :: d5 ++ ':' :: d6)
        | _ => none
      | _ => none
    | _ => none
  | _ => none

/-- `re.search(r'\d*-\d*-\d*\s*\d*:\d*:\d*', s)`: leftmost match. -/
def looseSearch : List Char → Option (List Char)
  | [] => none
  | c :: rest =>
    match looseMatchAt (c :: rest) with
    | some g => some g
    | none => looseSearch rest

/-- `looseSearch` on a string. -/
def looseSearchS (s : String) : Option (List Char) :=
  looseSearch s.data

/-- `%Y`: `\d\d\d\d`. -/
def parseY4 : List Char → Option (Nat × List Char)
  | a :: b :: c :: d :: r =>
    if a.isDigit && b.isDigit && c.isDigit && d.isDigit then
      some (dval a * 1000 + dval b * 100 + dval c * 10 + dval d, r)
    else none
  | _ => none

/-- A literal character of the format. -/
def expectChar (c : Char) : List Char → Option (List Char)
  | x :: r => if x = c then some r else none
  | [] => none

/-- `%m`: `1[0-2]|0[1-9]|[1-9]`, alternatives in `_strptime`'s order. -/
def parseMonthF : List Char → Option (Nat × List Char)
  | c1 :: c2 :: r =>
    if c1 = '1' && inR '0' '2' c2 then some (10 + dval c2, r)
    else if c1 = '0' && inR '1' '9' c2 then some (dval c2, r)
    else if inR '1' '9' c1 then some (dval c1, c2 :: r)
    else none
  | [c1] => if inR '1' '9' c1 then some (dval c1, []) else none
  | [] => none

/-- `%d`: `3[01]|[12]\d|0[1-9]|[1-9]| [1-9]` (note the native tolerance of a
space-padded single-digit day in the last alternative). -/
def parseDayF : List Char → Option (Nat × List Char)
  | c1 :: c2 :: r =>
    if c1 = '3' && inR '0' '1' c2 then some (30 + dval c2, r)
    else if inR '1' '2' c1 && c2.isDigit then some (dval c1 * 10 + dval c2, r)
    else if c1 = '0' && inR '1' '9' c2 then some (dval c2, r)
    else if inR '1' '9' c1 then some (dval c1, c2 :: r)
    else if c1 = ' ' && inR '1' '9' c2 then some (dval c2, r)
    else none
  | [c1] => if inR '1' '9' c1 then some (dval c1, []) else none
  | [] => none

/-- `%H`: `2[0-3]|[0-1]\d|\d`. -/
def parseHourF : List Char → Option (Nat × List Char)
  | c1 :: c2 :: r =>
    if c1 = '2' && inR '0' '3' c2 then some (20 + dval c2, r)
    else if inR '0' '1' c1 && c2.isDigit then some (dval c1 * 10 + dval c2, r)
    else if c1.isDigit then some (dval c1, c2 :: r)
    else none
  | [c1] => if c1.isDigit then some (dval c1, []) else none
  | [] => none

/-- `%M`: `[0-5]\d|\d`. -/
def parseMinF : List Char → Option (Nat × List Char)
  | c1 :: c2 :: r =>
    if inR '0' '5' c1 && c2.isDigit then some (dval c1 * 10 + dval c2, r)
    else if c1.isDigit then some (dval c1, c2 :: r)
    else none
  | [c1] => if c1.isDigit then some (dval c1, []) else none
  | [] => none

/-- `%S`: `6[0-1]|[0-5]\d|\d`. -/
def parseSecF : List Char → Option (Nat × List Char)
  | c1 :: c2 :: r =>
    if c1 = '6' && inR '0' '1' c2 then some (60 + dval c2, r)
    else if inR '0' '5' c1 && c2.isDigit then some (dval c1 * 10 + dval c2, r)
    else if c1.isDigit then some (dval c1, c2 :: r)
    else none
  | [c1] => if c1.isDigit then some (dval c1, []) else none
  | [] => none

/-- Gregorian leap-year rule, as `datetime` uses. -/
def isLeap (y : Nat) : Bool :=
  y % 4 == 0 && (y % 100 != 0 || y % 400 == 0)

/-- Length of a month, as `datetime` validates the day against. -/
def daysInMonth (y m : Nat) : Nat :=
  if m == 2 then (if isLeap y then 29 else 28)
  else if m == 4 || m == 6 || m == 9 || m == 11 then 30
  else 31

/-- Strictly monotone encoding of a calendar datetime into `Nat`, standing in
for `datetime(...).timestamp()`: the claims only compare such values with
each other (and with the `0` sentinel; a valid datetime encodes to a positive
value because `y ≥ 1` and `m ≥ 1`). -/
def encTs (y m d h mi s : Nat) : Nat :=
  ((((y * 12 + (m - 1)) * 31 + (d - 1)) * 24 + h) * 60 + mi) * 60 + s

/-- `datetime.strptime(g, '%Y-%m-%d   %H:%M:%S').timestamp()`:
parse the directives in order (the run of spaces in the format matches
`\s+`), require the whole candidate to be consumed, require the fields to
form a valid datetime; `none` is a `ValueError`. -/
def strptimeTs (g : List Char) : Option Nat := do
  let (y, r1) ← parseY4 g
  let r2 ← expectChar '-' r1
  let (m, r3) ← parseMonthF r2
  let r4 ← expectChar '-' r3
  let (d, r5) ← parseDayF r4
  let ws := r5.takeWhile Char.isWhitespace
  let r6 := r5.dropWhile Char.isWhitespace
  if ws.isEmpty then none else
  let (h, r7) ← parseHourF r6
  let r8 ← expectChar ':' r7
  let (mi, r9) ← parseMinF r8
  let r10 ← expectChar ':' r9
  let (s, r11) ← parseSecF r10
  if r11.isEmpty && decide (1 ≤ y) && decide (d ≤ daysInMonth y m)
      && decide (s ≤ 59) then
    some (encTs y m d h mi s)
  else
    none

/-- The `file_ts` computation of `list_dir` for one non-blank line
(lines 468-478): no candidate in the normalized `parts[0]` means
`file_ts = 0`; a candidate that `strptime` rejects raises `ValueError`
(`.error ()`), which nothing catches. -/
def lineTs (line : String) : Except Unit Nat :=
  match looseSearchS (normalizeTs (rsplit2Head line)) with
  | none => .ok 0
  | some g =>
    match strptimeTs g with
    | some t => .ok t
    | none => .error ()

/-- A parsed listing entry as `list_dir` returns it: a file row carries the
link text, the `href` query and `file_ts`; a directory row carries the link
text and the raw `href`. -/
inductive Entry : Type where
  | file : String → String → Nat → Entry
  | dir : String → String → Entry
  deriving DecidableEq

/-- Display name of an entry. -/
def Entry.name : Entry → String
  | .file n _ _ => n
  | .dir n _ => n

/-- `urllib.parse.urlparse(href).path` for the device's relative hrefs:
everything before the first `?`. -/
def urlPath (href : String) : String :=
  (href.data.takeWhile (fun c => !(c == '?'))).asString

/-- `urllib.parse.urlparse(href).query`: everything after the first `?`. -/
def urlQuery (href : String) : String :=
  ((href.data.dropWhile (fun c => !(c == '?'))).drop 1).asString

/-- `str.startswith`. -/
def strHasPre (pre s : String) : Bool := pre.data.isPrefixOf s.data

/-- `str.endswith`. -/
def strHasSuf (suf s : String) : Bool := suf.data.isSuffixOf s.data

/-- One line of a `<pre>` listing as `list_dir` sees it: the raw text (used
for the timestamp) and, from `bs4.BeautifulSoup(line).a`, the first anchor's
`href` and stripped text when the line has one.  `bs4` is an external
library, so its extraction is data here, not re-implemented. -/
structure ListingLine where
  raw : String
  anchor : Option (String × String)

/-- The body of `list_dir`'s per-line loop (lines 466-496): compute
`file_ts` from the raw line (a `ValueError` propagates), then, when the line
has an anchor, rewrite the link text `STR.EDF` to `STR.edf` (lines 484-486,
"Oscar expects STR.edf"), drop ignored and dot-names, and classify by the
href's path suffix (`download` = file row, `dir` = directory row, anything
else is dropped). `ign` is `self.ignore`, i.e.
`['.', '..', 'back to photo']` plus the configured list. -/
def processLine (ign : List String) (l : ListingLine) : Except Unit (Option Entry) :=
  match lineTs l.raw with
  | .error e => .error e
  | .ok ts =>
    match l.anchor with
    | none => .ok none
    | some (href, text0) =>
      let text := if text0 == "STR.EDF" then "STR.edf" else text0
      if ign.contains text || strHasPre "." text then .ok none
      else if strHasSuf "download" (urlPath href) then
        .ok (some (.file text (urlQuery href) ts))
      else if strHasSuf "dir" (urlPath href) then
        .ok (some (.dir text href))
      else .ok none

/-- `check_files` computes `local_path = dir_path / filename` (line 515): the
local file created for an entry lives in the current directory under the
entry's parsed name. -/
def localPathFor (dir : List String) (e : Entry) : List String :=
  dir ++ [e.name]

/-! ## The streaming body write (`ezshare_resmed.py`, lines 544-550)

After `raise_for_status()` succeeds, the code opens the FINAL path —
`with file_path.open('wb') as fp` — and appends each chunk of
`response.iter_content(block_size)` to it; there is no temporary name and no
rename.  A transport error during iteration propagates out of the loop after
the chunks so far have been written (the `with` block closes the file). -/

/-- Streaming write of `download_file`: `fs` maps local path to content;
`chunks` is what `iter_content` would yield on a complete transfer;
`failAfter = some k` means the connection dies after `k` chunks (the
exception propagates, hence the `false` flag), `none` is a complete
transfer.  In both cases the bytes land directly at `dest`. -/
def download_file_write (fs : List (String × String)) (dest : String)
    (chunks : List String) (failAfter : Option Nat) :
    List (String × String) × Bool :=
  match failAfter with
  | none =>
    ((dest, String.join chunks) :: fs.filter (fun q => !(q.1 == dest)), true)
  | some k =>
    ((dest, String.join (chunks.take k)) :: fs.filter (fun q => !(q.1 == dest)), false)

/-! ## `ezshare_generic.py`, `download_file` (lines 34-44)

```
for _ in range(retries):
    try:
        response = requests.get(url)
        with open(filename, 'wb') as file:
            file.write(response.content)
        return
    except requests.exceptions.RequestException as e:
        time.sleep(1)
```
No `raise_for_status`, no status check, no code path that re-raises: a
response of any status is written to the file, and when every attempt raises
the loop simply falls through and the function returns `None`. -/

/-- The attempt loop of the generic `download_file`: `fetch i` is attempt
`i`'s outcome (`.error` = a raised `RequestException` with an error code,
`.ok (status, body)` = any HTTP response).  Result: `.ok (some (status, body))`
when some attempt got a response (whose body was written to the file),
`.ok none` when the retries were exhausted (nothing written, normal return);
the `.error` side of the `Except` — an exception reaching the caller — is
what the function would need to produce to signal failure. -/
def download_file_generic_go (fetch : Nat → Except Nat (Nat × String)) :
    Nat → Nat → Except Nat (Option (Nat × String))
  | _, 0 => .ok none
  | i, Nat.succ k =>
    match fetch i with
    | .ok r => .ok (some r)
    | .error _ => download_file_generic_go fetch (i + 1) k

/-- `download_file(url, filename, retries)` of `ezshare_generic.py`. -/
def download_file_generic (fetch : Nat → Except Nat (Nat × String))
    (retries : Nat) : Except Nat (Option (Nat × String)) :=
  download_file_generic_go fetch 0 retries

/-! ## `transferCardData.py`, the date-folder loop (lines 149-185)

```
current_date = datetime.today()
date_folder = current_date.strftime('%Y%m%d')
while datetime.strptime(date_folder, '%Y%m%d') >= start_date:
    current_date -= timedelta(days=1)
    date_folder = current_date.strftime('%Y%m%d')
    ...download date_folder...
```
Dates are modelled as day numbers (one `Nat` per calendar day, order
preserved); the loop decrements BEFORE processing and tests the PREVIOUS
folder, so the processed folders are `today-1, today-2, ..., start_date-1`:
today's own folder is never fetched and the folder one day BEFORE the start
date is. -/

/-- Loop body: test `start ≤ d`, then process `d - 1`; `fuel` bounds the
iteration count (it is chosen exactly in `processedDays`). -/
def processedDaysGo (start : Nat) : Nat → Nat → List Nat
  | _, 0 => []
  | d, Nat.succ k =>
    if start ≤ d then (d - 1) :: processedDaysGo start (d - 1) k else []

/-- The date folders the `transferCardData.py` while-loop downloads, given
today's day number and the configured start day number. -/
def processedDays (today start : Nat) : List Nat :=
  processedDaysGo start today (today + 1 - start)

/-! ## Concrete sample data used by the closed theorems and witnesses -/

/-- A daily-log file dated before the threshold in `sampleTree`. -/
def sampleFile : RFile :=
  { name := "20230101_120000_BRP.edf", ts := encTs 2023 1 1 12 0 0,
    fetch := .ok "edfbytes" }

/-- A remote tree whose `DATALOG` parent has one date-named child,
`20230101`, strictly before the `20230105` threshold of `thresholdCfg`. -/
def sampleTree : RNode :=
  .good []
    (.dcons "DATALOG"
      (.good [] (.dcons "20230101" (.good [sampleFile] .dnil) .dnil))
      .dnil)

/-- A run configuration with the date threshold set to 2023-01-05
(`start_from = 20230105`) and both overwrite flags off. -/
def thresholdCfg : Config :=
  { overwrite := false, keep_old := false,
    start_time := some (encTs 2023 1 5 0 0 0) }

/-- A configuration with no threshold and both flags off. -/
def plainCfg : Config :=
  { overwrite := false, keep_old := false, start_time := none }

/-- The empty local filesystem. -/
def emptyFS : FS := { files := [], dirs := [] }

/-- A file whose every fetch attempt fails (final status 404). -/
def failFile : RFile := { name := "a.edf", ts := 5, fetch := .error 404 }

/-- A healthy sibling file listed after `failFile`. -/
def okFile : RFile := { name := "b.edf", ts := 5, fetch := .ok "B" }

/-- A parent listing with an unparsable subdirectory listed before a healthy
one: `20230820`'s page has no `<pre>` block, `20230821` is fine. -/
def badSiblingTree : RNode :=
  .good []
    (.dcons "20230820" .bad
      (.dcons "20230821" (.good [okFile] .dnil) .dnil))

/-- The full ignore list of `ezshare_resmed.py` at its defaults:
`['.', '..', 'back to photo']` plus
`'JOURNAL.JNL,ezshare.cfg,System Volume Information'`. -/
def defaultIgnore : List String :=
  [".", "..", "back to photo", "JOURNAL.JNL", "ezshare.cfg",
   "System Volume Information"]

/-- A raw listing line for the summary log, reported as `STR.EDF`. -/
def strLine : String :=
  "2023-08-19  10:11:12       262144 <a href=\"download?file=A:%5CSTR.EDF\">STR.EDF</a>"

/-- A listing line whose timestamp has a space-padded single-digit day. -/
def dayPadLine : String :=
  "2023- 8-19   8:30:00      33000 <a href=\"download?file=A:%5Cabc.edf\">abc.edf</a>"

/-- `dayPadLine` with the day zero-padded. -/
def dayZeroLine : String :=
  "2023-08-19   8:30:00      33000 <a href=\"download?file=A:%5Cabc.edf\">abc.edf</a>"

/-- A listing line whose timestamp has a space-padded single-digit hour. -/
def hourPadLine : String :=
  "2023-08-19    8:30:00      33000 <a href=\"download?file=A:%5Cabc.edf\">abc.edf</a>"

/-- `hourPadLine` with the hour zero-padded. -/
def hourZeroLine : String :=
  "2023-08-19   08:30:00      33000 <a href=\"download?file=A:%5Cabc.edf\">abc.edf</a>"

/-- A listing row with a date-like fragment that the loose search accepts but
that is not a `YYYY-MM-DD HH:MM:SS` timestamp. -/
def shortDateLine : String :=
  "1-2-3 4:5:6 128 <a href=\"download?file=A:%5CX\">X</a>"

/-- A listing row containing no date-like fragment at all. -/
def noTsLine : String :=
  "SETTINGS 0 <a href=\"dir?dir=A:%5CSETTINGS\">SETTINGS</a>"

/-- A configuration with `overwrite` AND `keep_old` both set. -/
def keepOldCfg : Config :=
  { overwrite := true, keep_old := true, start_time := none }

/-- A local filesystem already holding `SD_card/STR.edf` with mtime 55. -/
def keepOldFS : FS :=
  { files := [(["SD_card", "STR.edf"], 55)], dirs := [["SD_card"]] }

/-- A remote row newer than the local copy whose fetch would moreover fail;
under `keep_old` neither fact can matter. -/
def keepOldFile : RFile :=
  { name := "STR.edf", ts := 99, fetch := .error 500 }

/-! ## Theorems -/

/-- C1 (code bug evaluated at the failing input): the claim says a run with a
date threshold set skips every `YYYYMMDD`-named child of the daily-logs
parent that is strictly before the threshold, together with its subtree.  The
`ezshare_resmed.py` traversal never consults `start_time`: with the threshold
set to 2023-01-05, the run over a tree holding `DATALOG/20230101` completes,
creates the pre-threshold directory locally and downloads the file inside it,
and its result is identical to a run with no threshold at all.  The
`transferCardData.py` date loop does filter, but off by one on both ends:
with today = day 10 and start = day 5 it downloads folders 9 down to 4 — the
pre-threshold folder 4 is fetched and today's folder 10 never is. -/
theorem c1_date_threshold_not_enforced :
    (recursive_traversal thresholdCfg 0 sampleTree [] emptyFS).2 = none
    ∧ fileExistsB (recursive_traversal thresholdCfg 0 sampleTree [] emptyFS).1
        ["DATALOG", "20230101", "20230101_120000_BRP.edf"] = true
    ∧ ["DATALOG", "20230101"]
        ∈ (recursive_traversal thresholdCfg 0 sampleTree [] emptyFS).1.dirs
    ∧ recursive_traversal thresholdCfg 0 sampleTree [] emptyFS
        = recursive_traversal plainCfg 0 sampleTree [] emptyFS
    ∧ processedDays 10 5 = [9, 8, 7, 6, 5, 4]
    ∧ 4 ∈ processedDays 10 5
    ∧ 10 ∉ processedDays 10 5 := by
  decide

/-- C2 (code bug evaluated at the failing input): the claim says the body is
streamed to a temporary name and atomically renamed, so no half-written file
ever exists at the final path.  The code opens the final path itself
(`file_path.open('wb')`, line 547): a transfer of chunks `ab`, `cd` that dies
after the first chunk leaves the final destination holding exactly `"ab"` — a
half-written file, neither absent nor the full `"abcd"`. -/
theorem c2_partial_write_at_final_path :
    (download_file_write [] "DATALOG/20230819/abc.edf" ["ab", "cd"] (some 1)).2 = false
    ∧ (download_file_write [] "DATALOG/20230819/abc.edf" ["ab", "cd"] (some 1)).1.lookup
        "DATALOG/20230819/abc.edf" = some "ab"
    ∧ String.join ["ab", "cd"] = "abcd"
    ∧ "ab" ≠ "abcd"
    ∧ "ab" ≠ "" := by
  decide

/-- C5 counterexample: the claim says that under overwrite-off/keep-old-off a
missing local file is always downloaded.  At a row whose `modified_at` could
not be parsed (`file_ts = 0`) and whose local file does not exist, the code's
guard is `false` (it skips) while the spec's `IfRemoteNewer` wording demands
a download. -/
theorem c5_if_remote_newer_cex :
    downloadDecision false false false 0 0 = false
    ∧ ifRemoteNewerSpec false 0 0 = true := by
  decide

/-- C5 amended: under overwrite-off/keep-old-off the download is performed
iff the remote `file_ts` is strictly greater than the local mtime, where a
missing local file counts as mtime 0 — so a missing local file is downloaded
only when a remote timestamp was parsed (`file_ts > 0`). -/
theorem c5_if_remote_newer_decision (ex : Bool) (m ts : Nat) :
    downloadDecision false false ex m ts = decide ((if ex then m else 0) < ts) := by
  cases ex <;> simp [downloadDecision]

/-- C7: a second `IfRemoteNewer` run over an unchanged remote tree downloads
nothing — whatever the file's state before the first run, after the first
run's pass over it (which stamps `file_ts` as the local mtime on download)
the guard evaluates to false, i.e. the per-file decision is skip. -/
theorem c7_second_run_skips (m : Option Nat) (ts now : Nat) :
    downloadDecision false false (after_first_sync m ts now).isSome
      ((after_first_sync m ts now).getD 0) ts = false := by
  unfold after_first_sync
  split
  case isTrue h =>
    have h' := h
    simp only [downloadDecision, Bool.false_or, Bool.and_false, Bool.not_false,
      Bool.and_true, decide_eq_true_eq] at h'
    have hts : 0 < ts := lt_of_le_of_lt (Nat.zero_le _) h'
    have hne : ts ≠ 0 := Nat.pos_iff_ne_zero.mp hts
    simp [downloadDecision, hne]
  case isFalse h =>
    simp only [Bool.not_eq_true] at h
    exact h

/-- C3 counterexample: the claim says a file's hard fetch failure is recorded
and traversal continues to the remaining files.  With two files in one
directory, the first failing with status 404, the run aborts with the raised
error and the healthy second file is never written. -/
theorem c3_hard_failure_aborts_run_cex :
    recursive_traversal plainCfg 0 (.good [failFile, okFile] .dnil) [] emptyFS
      = (emptyFS, some (.http 404))
    ∧ fileExistsB emptyFS ["b.edf"] = false := by
  decide

/-- C3 amended: a file fetch that still fails after the session adapter's
retries raises out of `download_file`; nothing catches it, so
`recursive_traversal` aborts with that error, the remaining files of the
directory and all sibling entries are not processed, and no failure record
exists. -/
theorem c3_hard_failure_aborts_run (cfg : Config) (now : Nat) (f : RFile)
    (rest : List RFile) (dirs : RDirs) (path : List String) (fs : FS) (code : Nat)
    (hf : f.fetch = .error code)
    (hd : downloadDecision cfg.overwrite cfg.keep_old
      (fileExistsB fs (path ++ [f.name])) (mt0 fs (path ++ [f.name])) f.ts = true) :
    recursive_traversal cfg now (.good (f :: rest) dirs) path fs
      = (fs, some (.http code)) := by
  simp [recursive_traversal, check_files, download_file, hf, hd]

/-- Witness for C3's amended theorem at a concrete failing file. -/
theorem c3_hard_failure_aborts_run_witness :
    recursive_traversal plainCfg 0 (.good [failFile] .dnil) [] emptyFS
      = (emptyFS, some (.http 404)) :=
  c3_hard_failure_aborts_run plainCfg 0 failFile [] .dnil [] emptyFS 404 rfl (by decide)

/-- C4 counterexample: the claim says a listing page with no recognizable
container fails only that subtree while siblings still sync.  With the bad
directory listed before a healthy sibling, the run aborts at the bad listing
(`soup.find('pre')` is `None`) and the sibling's file is never downloaded. -/
theorem c4_parse_failure_aborts_run_cex :
    recursive_traversal plainCfg 0 badSiblingTree [] emptyFS
      = ({ files := [], dirs := [["20230820"]] }, some .parse)
    ∧ fileExistsB (recursive_traversal plainCfg 0 badSiblingTree [] emptyFS).1
        ["20230821", "b.edf"] = false := by
  decide

/-- C4 amended: a directory whose listing yields no `<pre>` block raises an
`AttributeError` that nothing catches: the traversal stops right there with
only that directory's local mkdir performed, aborting the entire run —
sibling directories listed after it are never synced. -/
theorem c4_parse_failure_aborts_run (cfg : Config) (now : Nat) (nm : String)
    (rest : RDirs) (path : List String) (fs : FS) :
    recursive_traversal cfg now (.good [] (.dcons nm .bad rest)) path fs
      = (mkdirFS fs (path ++ [nm]), some .parse) := by
  simp [recursive_traversal, check_files, check_dirs]

/-- C6 counterexample: the claim says every row in which no timestamp can be
matched yields an absent `modified_at`, not an error.  A row containing
`1-2-3 4:5:6` has nothing matching the fixed `YYYY-MM-DD HH:MM:SS` format,
yet the loose search does hand that fragment to `strptime`, which raises an
uncaught `ValueError` — the row is an error, not an absent timestamp. -/
theorem c6_unparsable_candidate_raises_cex :
    lineTs shortDateLine = .error ()
    ∧ looseSearchS (normalizeTs (rsplit2Head shortDateLine))
        = some "1-2-3 4:5:6".data := by
  decide

/-- C6 amended: a row where the loose candidate search (run on the
whitespace-rsplit head after the `'- '→'-0'` and `': '→':0'` replacements)
finds nothing yields `file_ts = 0` (absent), not an error; space-padded
single-digit day and hour fields still produce the same timestamp as their
zero-padded forms (the day via the replacement, the hour because the match
tolerates flexible whitespace and a one-digit hour); but a found candidate
that is not a valid `YYYY-MM-DD HH:MM:SS` timestamp raises instead. -/
theorem c6_timestamp_best_effort :
    (∀ line : String,
      looseSearchS (normalizeTs (rsplit2Head line)) = none → lineTs line = .ok 0)
    ∧ lineTs dayPadLine = lineTs dayZeroLine
    ∧ lineTs hourPadLine = lineTs hourZeroLine
    ∧ lineTs dayZeroLine = .ok (encTs 2023 8 19 8 30 0) := by
  refine ⟨fun line h => ?_, by decide, by decide, by decide⟩
  simp [lineTs, h]

/-- Witness for C6's amended theorem at a row with no date-like fragment. -/
theorem c6_timestamp_best_effort_witness : lineTs noTsLine = .ok 0 :=
  c6_timestamp_best_effort.1 noTsLine (by decide)

/-- C8: a file row whose stripped link text is exactly `STR.EDF` is returned
by the parser under the name `STR.edf` (lines 484-486), and `check_files`
derives the local path from that parsed name, so the file created locally is
named `STR.edf`. -/
theorem c8_str_edf_renamed (ign : List String) (raw href : String) (ts : Nat)
    (dir : List String)
    (hts : lineTs raw = .ok ts)
    (hign : ign.contains "STR.edf" = false)
    (hdl : strHasSuf "download" (urlPath href) = true) :
    processLine ign ⟨raw, some (href, "STR.EDF")⟩
        = .ok (some (.file "STR.edf" (urlQuery href) ts))
    ∧ localPathFor dir (.file "STR.edf" (urlQuery href) ts) = dir ++ ["STR.edf"] := by
  have hdot : strHasPre "." "STR.edf" = false := by decide
  have hmem : "STR.edf" ∉ ign := by simpa using hign
  exact ⟨by simp [processLine, hts, hign, hdl, hdot, hmem], rfl⟩

/-- Witness for C8 at the sample summary-log listing line. -/
theorem c8_str_edf_renamed_witness :
    processLine defaultIgnore ⟨strLine, some ("download?file=A:%5CSTR.EDF", "STR.EDF")⟩
        = .ok (some (.file "STR.edf" (urlQuery "download?file=A:%5CSTR.EDF")
            (encTs 2023 8 19 10 11 12)))
    ∧ localPathFor ["SD_card"]
        (.file "STR.edf" (urlQuery "download?file=A:%5CSTR.EDF")
          (encTs 2023 8 19 10 11 12))
        = ["SD_card", "STR.edf"] :=
  c8_str_edf_renamed defaultIgnore strLine "download?file=A:%5CSTR.EDF"
    (encTs 2023 8 19 10 11 12) ["SD_card"] (by decide) (by decide) (by decide)

/-- C9: when the local file already exists and `keep_old` is set, the guard's
`not (already_exists and self.keep_old)` conjunct is false regardless of
`overwrite`, so `download_file` takes the skip branch: no request is made
(the fetch outcome is never consulted) and the filesystem — content and
mtime — is returned unchanged. -/
theorem c9_keep_old_wins (cfg : Config) (now : Nat) (f : RFile)
    (path : List String) (fs : FS)
    (hk : cfg.keep_old = true)
    (hex : fileExistsB fs (path ++ [f.name]) = true) :
    check_files cfg now [f] path fs = (fs, none) := by
  simp [check_files, download_file, downloadDecision, hk, hex]

/-- Witness for C9: `overwrite` set, existing local file, failing fetch —
the run leaves the filesystem untouched and raises nothing. -/
theorem c9_keep_old_wins_witness :
    check_files keepOldCfg 0 [keepOldFile] ["SD_card"] keepOldFS
      = (keepOldFS, none) :=
  c9_keep_old_wins keepOldCfg 0 keepOldFile ["SD_card"] keepOldFS rfl (by decide)

/-- Helper for C10: the generic attempt loop always returns through `.ok`,
whatever the fetch outcomes, because the only `raise` the loop can see is the
caught `RequestException`. -/
theorem dfg_go_returns_ok (fetch : Nat → Except Nat (Nat × String)) :
    ∀ (k i : Nat), ∃ v, download_file_generic_go fetch i k = .ok v := by
  intro k
  induction k with
  | zero => intro i; exact ⟨none, rfl⟩
  | succ k ih =>
    intro i
    cases hf : fetch i with
    | ok r => exact ⟨some r, by simp [download_file_generic_go, hf]⟩
    | error c =>
      obtain ⟨v, hv⟩ := ih (i + 1)
      exact ⟨v, by simp [download_file_generic_go, hf, hv]⟩

/-- Helper for C10: when every attempt raises, the loop falls through and
returns `None` — nothing was written and no error is reported. -/
theorem dfg_go_all_raised (fetch : Nat → Except Nat (Nat × String))
    (h : ∀ j, ∃ c, fetch j = .error c) :
    ∀ (k i : Nat), download_file_generic_go fetch i k = .ok none := by
  intro k
  induction k with
  | zero => intro i; rfl
  | succ k ih =>
    intro i
    obtain ⟨c, hc⟩ := h i
    simp [download_file_generic_go, hc, ih (i + 1)]

/-- C10: the generic `download_file` never signals failure to its caller —
its result is always `.ok`; the first attempt that gets a response writes its
body whatever the status code (an error page becomes the file's content);
and when every attempt raises it returns normally with nothing written, so
the file is silently omitted. -/
theorem c10_generic_silent (fetch : Nat → Except Nat (Nat × String))
    (retries : Nat) :
    (∃ v, download_file_generic fetch retries = .ok v)
    ∧ (∀ status body, fetch 0 = .ok (status, body) → 0 < retries →
        download_file_generic fetch retries = .ok (some (status, body)))
    ∧ ((∀ j, ∃ c, fetch j = .error c) →
        download_file_generic fetch retries = .ok none) := by
  refine ⟨dfg_go_returns_ok fetch retries 0, ?_,
    fun h => dfg_go_all_raised fetch h retries 0⟩
  intro status body h0 hr
  cases retries with
  | zero => exact absurd hr (by simp)
  | succ k => simp [download_file_generic, download_file_generic_go, h0]

/-- Witness for C10: a 404 error page is written as the file's content, and a
connection that always raises ends in a normal return with no file. -/
theorem c10_generic_silent_witness :
    download_file_generic (fun _ => .ok (404, "error page")) 3
        = .ok (some (404, "error page"))
    ∧ download_file_generic (fun _ => .error 7) 3 = .ok none :=
  ⟨(c10_generic_silent (fun _ => .ok (404, "error page")) 3).2.1 404 "error page"
      rfl (by decide),
   (c10_generic_silent (fun _ => .error 7) 3).2.2 (fun j => ⟨7, rfl⟩)⟩

end EZShareSpec

